import Mathlib

/-!
Verification of the Heal-Fit report-analysis pipeline and dashboard state.

This file shallowly embeds the relevant parts of the repository:

* the ReportAnalyzer component (analyzeContent, extractSection, generatePDF),
* the dashboard panel toggles of AuthenticatedApp (App.tsx),
* the rewards operations completeTask and claimReward (Profile.tsx).

External collaborators (the generative completion service, the JSON parser of
the host runtime, and the word-wrap routine of the document library) are
modelled as opaque function parameters; everything else is translated
line-by-line from the source.  JavaScript strings are modelled as Lean
strings, with the few string primitives the source uses (includes, endsWith,
startsWith, toLowerCase, trim, split) reimplemented over character lists so
that every definition evaluates inside the kernel.
-/

/-- Whether the first list is an initial segment of the second
(JavaScript String.startsWith, over characters). -/
def charPrefixEq : List Char → List Char → Bool
  | [], _ => true
  | _ :: _, [] => false
  | a :: as, b :: bs => a == b && charPrefixEq as bs

/-- Whether the pattern occurs contiguously somewhere in the list
(JavaScript String.includes, over characters). -/
def charContainsSeq (pat : List Char) : List Char → Bool
  | [] => pat.isEmpty
  | c :: rest => charPrefixEq pat (c :: rest) || charContainsSeq pat rest

/-- JavaScript s.includes(pat). -/
def strContains (s pat : String) : Bool :=
  charContainsSeq pat.toList s.toList

/-- JavaScript s.endsWith(pat). -/
def strEndsWith (s pat : String) : Bool :=
  charPrefixEq pat.toList.reverse s.toList.reverse

/-- JavaScript s.startsWith(pat). -/
def strStartsWith (s pat : String) : Bool :=
  charPrefixEq pat.toList s.toList

/-- JavaScript s.toLowerCase() (ASCII range, which is all the source uses). -/
def strLower (s : String) : String :=
  String.mk (s.toList.map Char.toLower)

/-- JavaScript s.trim(): strip leading and trailing whitespace. -/
def strTrim (s : String) : String :=
  String.mk (((s.toList.dropWhile Char.isWhitespace).reverse.dropWhile
    Char.isWhitespace).reverse)

/-- JavaScript s.length. -/
def strLen (s : String) : Nat :=
  s.toList.length

/-- JavaScript text.split(newline): the list of lines of the text. -/
def splitLines (s : String) : List String :=
  (s.toList.splitOn '\n').map String.mk

/-- The per-line target test of extractSection (ReportAnalyzer lines 236-239):
the lowercased line contains one of the section names and either contains a
colon or ends with that name. -/
def isTargetLine (sectionNames : List String) (orig : String) : Bool :=
  let line := strLower orig
  sectionNames.any fun name =>
    strContains line (strLower name) &&
      (strContains line ":" || strEndsWith line (strLower name))

/-- The potential-heading test of extractSection (ReportAnalyzer lines
250-252): lowercased line shorter than 50 characters, containing or ending
with a colon, and without a double space (indented content). -/
def isPotentialHeadingLine (orig : String) : Bool :=
  let line := strLower orig
  decide (strLen line < 50) &&
    (strContains line ":" || strEndsWith line ":") &&
    !(strContains line "  ")

/-- Whether the previous line exists and trims to the empty string
(the i greater than zero, lines at i minus one trim empty test of
ReportAnalyzer line 254). -/
def prevLineBlank : Option String → Bool
  | some p => strTrim p == ""
  | none => false

/-- The scanning loop of extractSection (ReportAnalyzer lines 232-260),
carried over the remaining lines with the previous line, the capturing flag
and the accumulated text as explicit state.  A target line restarts the
accumulator; while capturing, a potential heading preceded by a blank line
stops the scan; otherwise captured lines are appended with a newline. -/
def extractLoop (sectionNames : List String) :
    List String → Option String → Bool → String → String
  | [], _, _, acc => acc
  | l :: rest, prev, capturing, acc =>
    if isTargetLine sectionNames l then
      extractLoop sectionNames rest (some l) true l
    else if capturing then
      if isPotentialHeadingLine l && prevLineBlank prev then
        acc
      else
        extractLoop sectionNames rest (some l) true (acc ++ "\n" ++ l)
    else
      extractLoop sectionNames rest (some l) false acc

/-- extractSection (ReportAnalyzer lines 227-263): split the text into
lines, run the scanning loop, trim, and fall back to the fixed placeholder
when the trimmed result is empty. -/
def extractSection (text : String) (sectionNames : List String) : String :=
  let extracted := extractLoop sectionNames (splitLines text) none false ""
  let trimmed := strTrim extracted
  if trimmed == "" then "No information available" else trimmed

example :
    extractSection
      "Diagnosis: Mild strain\n  rest advised\n  follow up\n\nRecommendations: rest"
      ["diagnosis", "assessment"] =
    "Diagnosis: Mild strain\n  rest advised\n  follow up" := by decide

/-- The per-image findings record (the ImageFindings shape of the
AnalysisResult interface, ReportAnalyzer lines 11-19). -/
structure ImageFindings where
  description : String
  abnormalities : List String
  measurements : List String
  confidence : Int
  recommendations : String
  deriving Repr, DecidableEq

/-- The aggregated result (AnalysisResult interface, ReportAnalyzer lines
9-22).  The imageFindings object is modelled as an association list keyed by
file name, in insertion order, matching the enumeration order of a
JavaScript object with string keys. -/
structure AnalysisResult where
  textFindings : String
  imageFindings : List (String × ImageFindings)
  diagnosis : String
  recommendations : String
  deriving Repr, DecidableEq

/-- An uploaded file: name and declared MIME type.  The raw bytes only ever
reach the opaque completion service, so they are not modelled. -/
structure FileRec where
  name : String
  mime : String
  deriving Repr, DecidableEq

/-- JavaScript object-key assignment obj[k] = v on an association list:
overwrite the value at an existing key, keeping its position, otherwise
append the new key at the end. -/
def upsert {α : Type} : List (String × α) → String → α → List (String × α)
  | [], k, v => [(k, v)]
  | (k', v') :: rest, k, v =>
    if k' = k then (k, v) :: rest else (k', v') :: upsert rest k v

/-- Association-list lookup, JavaScript obj[k] read. -/
def lookupA {α : Type} : List (String × α) → String → Option α
  | [], _ => none
  | (k', v') :: rest, k => if k' = k then some v' else lookupA rest k

/-- The try/catch around JSON.parse of a per-image reply (ReportAnalyzer
lines 161-174).  The host JSON parser is the opaque parameter parse,
returning some findings exactly when the reply is valid JSON of the
expected shape; on parse failure the degraded record is built from the raw
reply text. -/
def handleImageReply (parse : String → Option ImageFindings)
    (responseText : String) : ImageFindings :=
  match parse responseText with
  | some analysis => analysis
  | none =>
    { description := responseText
      abnormalities := []
      measurements := []
      confidence := 0
      recommendations := "Unable to parse detailed analysis" }

/-- The per-image loop of analyzeContent (ReportAnalyzer lines 118-180).
The completion service is the oracle svc, indexed by invocation count; a
reply of Except.error models a thrown exception (network or service
failure).  The loop state is the next invocation index, the imageAnalysis
object and the imageAnalysisProgress object.  On an exception the loop
aborts with the number of invocations made and the progress so far; on
success it returns the findings, the next invocation index and the
progress. -/
def runImages (parse : String → Option ImageFindings)
    (svc : Nat → Except Unit String) :
    List FileRec → Nat → List (String × ImageFindings) → List (String × Nat) →
    Except (Nat × List (String × Nat))
      (List (String × ImageFindings) × Nat × List (String × Nat))
  | [], i, acc, prog => Except.ok (acc, i, prog)
  | f :: rest, i, acc, prog =>
    let prog0 := upsert prog f.name 0
    match svc i with
    | Except.error _ => Except.error (i + 1, prog0)
    | Except.ok reply =>
      let acc' := upsert acc f.name (handleImageReply parse reply)
      runImages parse svc rest (i + 1) acc' (upsert prog0 f.name 100)

/-- The section assembly after the aggregate call (ReportAnalyzer lines
191-208): each of the three fields starts from its own fixed default and is
replaced by an extractSection run only when the lowercased reply contains
the field's guard keyword. -/
def aggregateSections (responseText : String) : String × String × String :=
  let lower := strLower responseText
  let textFindings :=
    if strContains lower "document findings" || strContains lower "text findings" then
      extractSection responseText ["document findings", "text findings"]
    else "No document findings available"
  let diagnosis :=
    if strContains lower "diagnosis" then
      extractSection responseText ["diagnosis", "assessment"]
    else "No diagnosis available"
  let recommendations :=
    if strContains lower "recommendation" || strContains lower "treatment" then
      extractSection responseText ["recommendation", "treatment", "plan"]
    else "No recommendations available"
  (textFindings, diagnosis, recommendations)

/-- The component state touched by analyzeContent: the selected files, the
patient name, the error message, the stored result, the analyzing flag and
the per-file progress object. -/
structure AState where
  files : List FileRec
  patientName : String
  error : String
  result : Option AnalysisResult
  isAnalyzing : Bool
  progress : List (String × Nat)
  deriving Repr

/-- analyzeContent (ReportAnalyzer lines 73-224) as a state transition.
Returns the new component state together with the number of completion-
service invocations made.  The validation guard (line 74) rejects an empty
file list or empty patient name before any service call.  Otherwise the
per-image loop runs, then one aggregate call; any exception from the oracle
is caught once at the top, setting the fixed generic error message and
leaving the stored result untouched, and the finally block clears the
analyzing flag on every path past the guard. -/
def analyzeContent (parse : String → Option ImageFindings)
    (svc : Nat → Except Unit String) (s : AState) : AState × Nat :=
  if s.files.length == 0 || s.patientName == "" then
    ({ s with error := "Please upload files and enter patient name" }, 0)
  else
    let imageFiles := s.files.filter fun f => strStartsWith f.mime "image/"
    match runImages parse svc imageFiles 0 [] s.progress with
    | Except.error (n, prog) =>
      ({ s with error := "Error analyzing documents. Please try again."
                isAnalyzing := false
                progress := prog }, n)
    | Except.ok (findings, n, prog) =>
      match svc n with
      | Except.error _ =>
        ({ s with error := "Error analyzing documents. Please try again."
                  isAnalyzing := false
                  progress := prog }, n + 1)
      | Except.ok responseText =>
        let secs := aggregateSections responseText
        ({ s with error := ""
                  result := some
                    { textFindings := secs.1
                      imageFindings := findings
                      diagnosis := secs.2.1
                      recommendations := secs.2.2 }
                  isAnalyzing := false
                  progress := prog }, n + 1)

/-- A drawing command issued to the document library (jsPDF) by
generatePDF, recorded in order. -/
inductive PdfCmd where
  | setFillColor (r g b : Nat)
  | rect (x y w h : Int) (style : String)
  | setTextColor (r g b : Nat)
  | setFontSize (n : Nat)
  | setFont (style : String)
  | textAt (s : String) (x y : Int)
  | textLines (ls : List String) (x y : Int)
  | addPage
  | save (name : String)
  deriving Repr, DecidableEq

/-- generatePDF (ReportAnalyzer lines 265-342) as the list of drawing
commands it issues, in source order.  The library's word-wrap
splitTextToSize is the opaque parameter wrap (and wrapObj for the call at
line 306, which passes the imageFindings object rather than a string);
pageWidth is the opaque pw; the current date string is the parameter
dateStr.  The vertical cursor yPos follows the source arithmetic exactly,
including the two threshold checks against 230 before the Diagnosis and
Recommendations sections.  A missing result returns no commands (guard at
line 266). -/
def generatePDF (wrap : String → Int → List String)
    (wrapObj : List (String × ImageFindings) → Int → List String)
    (pw : Int) (patientName dateStr : String)
    (result : Option AnalysisResult) : List PdfCmd :=
  match result with
  | none => []
  | some r =>
    let textLines := wrap r.textFindings (pw - 40)
    let imageLines := wrapObj r.imageFindings (pw - 40)
    let diagnosisLines := wrap r.diagnosis (pw - 40)
    let recommendationLines := wrap r.recommendations (pw - 40)
    let y1 : Int := 80
    let y2 : Int := y1 + 10 + textLines.length * 7
    let y3 : Int := y2 + 10 + imageLines.length * 7
    let y4 : Int := if y3 > 230 then 20 else y3
    let y5 : Int := y4 + 10 + diagnosisLines.length * 7
    let y6 : Int := if y5 > 230 then 20 else y5
    [PdfCmd.setFillColor 41 98 255,
     PdfCmd.rect 0 0 pw 40 "F",
     PdfCmd.setTextColor 255 255 255,
     PdfCmd.setFontSize 24,
     PdfCmd.textAt "AI Health Report" 20 25,
     PdfCmd.setTextColor 0 0 0,
     PdfCmd.setFontSize 12,
     PdfCmd.textAt ("Patient Name: " ++ patientName) 20 50,
     PdfCmd.textAt ("Date: " ++ dateStr) 20 60,
     PdfCmd.setFontSize 14,
     PdfCmd.setFont "bold",
     PdfCmd.textAt "Findings from Documents" 20 y1,
     PdfCmd.setFont "normal",
     PdfCmd.setFontSize 12,
     PdfCmd.textLines textLines 20 (y1 + 10),
     PdfCmd.setFontSize 14,
     PdfCmd.setFont "bold",
     PdfCmd.textAt "Image Analysis" 20 y2,
     PdfCmd.setFont "normal",
     PdfCmd.setFontSize 12,
     PdfCmd.textLines imageLines 20 (y2 + 10)] ++
    (if y3 > 230 then [PdfCmd.addPage] else []) ++
    [PdfCmd.setFontSize 14,
     PdfCmd.setFont "bold",
     PdfCmd.textAt "Diagnosis" 20 y4,
     PdfCmd.setFont "normal",
     PdfCmd.setFontSize 12,
     PdfCmd.textLines diagnosisLines 20 (y4 + 10)] ++
    (if y5 > 230 then [PdfCmd.addPage] else []) ++
    [PdfCmd.setFontSize 14,
     PdfCmd.setFont "bold",
     PdfCmd.textAt "Recommendations" 20 y6,
     PdfCmd.setFont "normal",
     PdfCmd.setFontSize 12,
     PdfCmd.textLines recommendationLines 20 (y6 + 10),
     PdfCmd.save (patientName ++ "_AI_Health_Report.pdf")]

/-- Number of page breaks a command list contains. -/
def countAddPage : List PdfCmd → Nat
  | [] => 0
  | PdfCmd.addPage :: rest => countAddPage rest + 1
  | _ :: rest => countAddPage rest

/-- The six panel flags of AuthenticatedApp (App.tsx lines 17-22). -/
structure PanelState where
  showProfile : Bool
  showBlockchain : Bool
  showCommunity : Bool
  showHandTracker : Bool
  showAdminControl : Bool
  showReportAnalyzer : Bool
  deriving Repr, DecidableEq

/-- The six toggle handlers of AuthenticatedApp. -/
inductive PanelToggle where
  | profile | blockchain | community | handTracker | adminControl | reportAnalyzer
  deriving Repr, DecidableEq

/-- One toggle handler (App.tsx lines 24-76): negate the handler's own flag
and reset the five others to false. -/
def applyToggle : PanelToggle → PanelState → PanelState
  | PanelToggle.profile, s =>
    ⟨!s.showProfile, false, false, false, false, false⟩
  | PanelToggle.blockchain, s =>
    ⟨false, !s.showBlockchain, false, false, false, false⟩
  | PanelToggle.community, s =>
    ⟨false, false, !s.showCommunity, false, false, false⟩
  | PanelToggle.handTracker, s =>
    ⟨false, false, false, !s.showHandTracker, false, false⟩
  | PanelToggle.adminControl, s =>
    ⟨false, false, false, false, !s.showAdminControl, false⟩
  | PanelToggle.reportAnalyzer, s =>
    ⟨false, false, false, false, false, !s.showReportAnalyzer⟩

/-- The initial state: every panel flag false (useState(false) six times). -/
def initPanels : PanelState :=
  ⟨false, false, false, false, false, false⟩

/-- How many panel flags are true. -/
def countOpen (s : PanelState) : Nat :=
  (if s.showProfile then 1 else 0) + (if s.showBlockchain then 1 else 0) +
  (if s.showCommunity then 1 else 0) + (if s.showHandTracker then 1 else 0) +
  (if s.showAdminControl then 1 else 0) + (if s.showReportAnalyzer then 1 else 0)

/-- Run a sequence of toggles from a state. -/
def runToggles (ops : List PanelToggle) (s : PanelState) : PanelState :=
  ops.foldl (fun st t => applyToggle t st) s

/-- A coupon (Profile.tsx line 111). -/
structure Coupon where
  code : String
  status : String
  expiry : String
  deriving Repr, DecidableEq

/-- The four gamified modules of moduleProgress (Profile.tsx lines 112-117). -/
inductive RewardModule where
  | challenges | mealPlanner | goals | journaling
  deriving Repr, DecidableEq

/-- The rewards-related component state of Profile.tsx: points, coupons and
module progress. -/
structure RewardState where
  userPoints : Int
  userCoupons : List Coupon
  progChallenges : Nat
  progMealPlanner : Nat
  progGoals : Nat
  progJournaling : Nat
  deriving Repr, DecidableEq

/-- Initial rewards state: zero points, no coupons, zero progress
(Profile.tsx lines 110-117). -/
def initRewards : RewardState :=
  ⟨0, [], 0, 0, 0, 0⟩

/-- completeTask (Profile.tsx lines 425-428): add 10 points and bump the
module's progress counter. -/
def completeTask (m : RewardModule) (s : RewardState) : RewardState :=
  let s' := { s with userPoints := s.userPoints + 10 }
  match m with
  | RewardModule.challenges => { s' with progChallenges := s'.progChallenges + 1 }
  | RewardModule.mealPlanner => { s' with progMealPlanner := s'.progMealPlanner + 1 }
  | RewardModule.goals => { s' with progGoals := s'.progGoals + 1 }
  | RewardModule.journaling => { s' with progJournaling := s'.progJournaling + 1 }

/-- claimReward (Profile.tsx lines 431-441): below 100 points nothing
happens; otherwise one coupon with status active is appended (its code
built from the user id and a random string, its expiry from the clock, both
modelled as parameters) and 100 points are deducted. -/
def claimReward (userId randomStr expiry : String) (s : RewardState) :
    RewardState :=
  if s.userPoints < 100 then s
  else
    { s with
      userCoupons := s.userCoupons ++
        [{ code := "HEX-" ++ userId ++ "-" ++ randomStr
           status := "active"
           expiry := expiry }]
      userPoints := s.userPoints - 100 }

/-- One rewards operation: a task completion or a claim attempt (with the
environment inputs of the claim recorded in the operation). -/
inductive RewardOp where
  | complete (m : RewardModule)
  | claim (userId randomStr expiry : String)
  deriving Repr

/-- Apply one rewards operation. -/
def applyRewardOp (op : RewardOp) (s : RewardState) : RewardState :=
  match op with
  | RewardOp.complete m => completeTask m s
  | RewardOp.claim uid rand exp => claimReward uid rand exp s

/-- Run a sequence of rewards operations from the initial state. -/
def runRewards (ops : List RewardOp) : RewardState :=
  ops.foldl (fun s op => applyRewardOp op s) initRewards

/-- Claim C1: a submission with no selected files or an empty patient name
makes no completion-service invocation, sets the fixed user-visible error
message, and leaves the stored analysis result unchanged. -/
theorem c1_validation_guard (parse : String → Option ImageFindings)
    (svc : Nat → Except Unit String) (s : AState)
    (h : s.files = [] ∨ s.patientName = "") :
    (analyzeContent parse svc s).2 = 0 ∧
    (analyzeContent parse svc s).1.error =
      "Please upload files and enter patient name" ∧
    (analyzeContent parse svc s).1.result = s.result := by
  have hguard : (s.files.length == 0 || s.patientName == "") = true := by
    rcases h with h | h <;> simp [h]
  simp [analyzeContent, hguard]

/-- Witness for C1 at a concrete state with no files. -/
theorem c1_validation_guard_witness :
    (analyzeContent (fun _ => none) (fun _ => Except.ok "reply")
      ⟨[], "Jane Doe", "", none, false, []⟩).2 = 0 ∧
    (analyzeContent (fun _ => none) (fun _ => Except.ok "reply")
      ⟨[], "Jane Doe", "", none, false, []⟩).1.error =
      "Please upload files and enter patient name" ∧
    (analyzeContent (fun _ => none) (fun _ => Except.ok "reply")
      ⟨[], "Jane Doe", "", none, false, []⟩).1.result = none :=
  c1_validation_guard (fun _ => none) (fun _ => Except.ok "reply")
    ⟨[], "Jane Doe", "", none, false, []⟩ (Or.inl rfl)

/-- Every single toggle leaves at most one panel flag set: the five other
flags are reset to false and the handler's own flag is negated. -/
lemma countOpen_applyToggle (t : PanelToggle) (s : PanelState) :
    countOpen (applyToggle t s) ≤ 1 := by
  cases t <;> simp [applyToggle, countOpen] <;> split <;> simp

/-- Running any toggle sequence from a state with at most one open panel
keeps at most one panel open. -/
lemma countOpen_runToggles (ops : List PanelToggle) :
    ∀ s : PanelState, countOpen s ≤ 1 → countOpen (runToggles ops s) ≤ 1 := by
  induction ops with
  | nil => intro s h; exact h
  | cons t rest ih =>
    intro s _
    exact ih (applyToggle t s) (countOpen_applyToggle t s)

/-- Claim C9: each panel toggle resets every other flag to false, so from
the all-false initial state any sequence of toggle operations leaves at
most one of the six panel flags true. -/
theorem c9_panel_invariant :
    (∀ (t : PanelToggle) (s : PanelState), countOpen (applyToggle t s) ≤ 1) ∧
    ∀ ops : List PanelToggle, countOpen (runToggles ops initPanels) ≤ 1 := by
  refine ⟨countOpen_applyToggle, fun ops => ?_⟩
  exact countOpen_runToggles ops initPanels (by simp [initPanels, countOpen])

/-- completeTask leaves userPoints 10 higher, whatever the module. -/
lemma completeTask_points (m : RewardModule) (s : RewardState) :
    (completeTask m s).userPoints = s.userPoints + 10 := by
  cases m <;> rfl

/-- The points invariant: after any operation sequence from the initial
state, userPoints is 10 times a natural number. -/
lemma runRewards_points_mul (ops : List RewardOp) :
    ∀ s : RewardState, (∃ k : Nat, s.userPoints = 10 * (k : Int)) →
      ∃ k : Nat, (ops.foldl (fun st op => applyRewardOp op st) s).userPoints =
        10 * (k : Int) := by
  induction ops with
  | nil => intro s h; exact h
  | cons op rest ih =>
    intro s h
    apply ih
    obtain ⟨k, hk⟩ := h
    cases op with
    | complete m =>
      refine ⟨k + 1, ?_⟩
      simp [applyRewardOp, completeTask_points, hk]
      ring
    | claim uid rand exp =>
      simp only [applyRewardOp, claimReward]
      by_cases hlt : s.userPoints < 100
      · simp [hlt]
        exact ⟨k, hk⟩
      · rw [hk] at hlt
        have hk10 : 10 ≤ k := by omega
        refine ⟨k - 10, ?_⟩
        rw [hk, if_neg hlt]
        show 10 * (k : Int) - 100 = 10 * ((k - 10 : Nat) : Int)
        push_cast [hk10]
        ring

/-- Claim C10: claimReward is the identity below 100 points; at or above
100 points it appends exactly one active coupon and deducts exactly 100
points; and since completeTask is the only other way points change (always
adding 10), userPoints is a non-negative multiple of 10 after any operation
sequence from the initial state. -/
theorem c10_rewards_invariant :
    (∀ (uid rand exp : String) (s : RewardState),
      s.userPoints < 100 → claimReward uid rand exp s = s) ∧
    (∀ (uid rand exp : String) (s : RewardState), ¬ s.userPoints < 100 →
      (claimReward uid rand exp s).userCoupons =
        s.userCoupons ++
          [{ code := "HEX-" ++ uid ++ "-" ++ rand
             status := "active"
             expiry := exp }] ∧
      (claimReward uid rand exp s).userPoints = s.userPoints - 100) ∧
    ∀ ops : List RewardOp,
      0 ≤ (runRewards ops).userPoints ∧
      ∃ k : Nat, (runRewards ops).userPoints = 10 * (k : Int) := by
  refine ⟨?_, ?_, ?_⟩
  · intro uid rand exp s h
    simp [claimReward, h]
  · intro uid rand exp s h
    constructor <;> simp [claimReward, h]
  · intro ops
    have h := runRewards_points_mul ops initRewards ⟨0, rfl⟩
    obtain ⟨k, hk⟩ := h
    unfold runRewards
    rw [hk]
    exact ⟨by positivity, ⟨k, rfl⟩⟩

/-- Witness for C10: a concrete low-points state is unchanged by a claim,
and a concrete run of eleven task completions and one claim. -/
theorem c10_rewards_invariant_witness :
    claimReward "USER" "ABCD" "2026-11-10" ⟨50, [], 0, 0, 0, 0⟩ =
      ⟨50, [], 0, 0, 0, 0⟩ ∧
    0 ≤ (runRewards (List.replicate 11 (RewardOp.complete RewardModule.goals) ++
      [RewardOp.claim "USER" "ABCD" "2026-11-10"])).userPoints :=
  ⟨c10_rewards_invariant.1 "USER" "ABCD" "2026-11-10" ⟨50, [], 0, 0, 0, 0⟩
      (by decide),
   (c10_rewards_invariant.2.2 (List.replicate 11
      (RewardOp.complete RewardModule.goals) ++
      [RewardOp.claim "USER" "ABCD" "2026-11-10"])).1⟩

/-- Writing a key makes it present with the written value. -/
lemma lookupA_upsert_self {α : Type} (m : List (String × α)) (k : String)
    (v : α) : lookupA (upsert m k v) k = some v := by
  induction m with
  | nil => simp [upsert, lookupA]
  | cons p rest ih =>
    obtain ⟨k', v'⟩ := p
    by_cases h : k' = k
    · subst h
      simp [upsert, lookupA]
    · simp [upsert, lookupA, h, ih]

/-- Writing one key never removes another. -/
lemma isSome_lookupA_upsert {α : Type} (m : List (String × α))
    (k q : String) (v : α) (h : (lookupA m q).isSome) :
    (lookupA (upsert m k v) q).isSome := by
  induction m with
  | nil => simp [lookupA] at h
  | cons p rest ih =>
    obtain ⟨k', v'⟩ := p
    by_cases h1 : k' = k
    · subst h1
      by_cases h2 : k' = q
      · simp [upsert, lookupA, h2]
      · simp [upsert, lookupA, h2] at h ⊢
        exact h
    · by_cases h2 : k' = q
      · subst h2
        simp [upsert, lookupA, h1]
      · simp [upsert, lookupA, h1, h2] at h ⊢
        exact ih h

/-- When every per-image service call succeeds, the per-image loop finishes
without an exception, makes exactly one invocation per image file, keeps
every key already stored, and stores an entry for every processed file. -/
lemma runImages_ok (parse : String → Option ImageFindings)
    (svc : Nat → Except Unit String) :
    ∀ (fs : List FileRec) (i0 : Nat) (acc : List (String × ImageFindings))
      (prog : List (String × Nat)),
      (∀ j, j < fs.length → ∃ r, svc (i0 + j) = Except.ok r) →
      ∃ out prog',
        runImages parse svc fs i0 acc prog =
          Except.ok (out, i0 + fs.length, prog') ∧
        (∀ q, (lookupA acc q).isSome → (lookupA out q).isSome) ∧
        (∀ f ∈ fs, (lookupA out f.name).isSome) := by
  intro fs
  induction fs with
  | nil =>
    intro i0 acc prog _
    exact ⟨acc, prog, by simp [runImages], fun _ hq => hq, by simp⟩
  | cons f rest ih =>
    intro i0 acc prog h
    obtain ⟨r, hr⟩ := h 0 (Nat.succ_pos rest.length)
    rw [Nat.add_zero] at hr
    have hrest : ∀ j, j < rest.length → ∃ r, svc (i0 + 1 + j) = Except.ok r := by
      intro j hj
      have hh := h (j + 1) (by simpa using Nat.succ_lt_succ hj)
      rw [show i0 + (j + 1) = i0 + 1 + j by omega] at hh
      exact hh
    obtain ⟨out, prog', hrun, hkeep, hmem⟩ :=
      ih (i0 + 1) (upsert acc f.name (handleImageReply parse r))
        (upsert (upsert prog f.name 0) f.name 100) hrest
    refine ⟨out, prog', ?_, ?_, ?_⟩
    · rw [show i0 + (f :: rest).length = i0 + 1 + rest.length by simp; omega]
      simpa [runImages, hr] using hrun
    · intro q hq
      exact hkeep q (isSome_lookupA_upsert acc f.name q _ hq)
    · intro g hg
      rcases List.mem_cons.mp hg with hg | hg
      · subst hg
        apply hkeep
        rw [lookupA_upsert_self]
        rfl
      · exact hmem g hg

/-- Claim C3: when the reply for an image fails to parse as JSON, the
record stored under that file's name is the degraded record whose
description is the raw reply text, with empty abnormalities, empty
measurements, confidence zero and the fixed unable-to-parse
recommendations string; and the loop continues past such files, finishing
with an entry stored for every image file whenever no service call throws. -/
theorem c3_degraded_record (parse : String → Option ImageFindings)
    (reply : String) (hp : parse reply = none) :
    handleImageReply parse reply =
      { description := reply
        abnormalities := []
        measurements := []
        confidence := 0
        recommendations := "Unable to parse detailed analysis" } ∧
    ∀ (svc : Nat → Except Unit String) (fs : List FileRec) (i0 : Nat)
      (acc : List (String × ImageFindings)) (prog : List (String × Nat)),
      (∀ j, j < fs.length → ∃ r, svc (i0 + j) = Except.ok r) →
      ∃ out prog',
        runImages parse svc fs i0 acc prog =
          Except.ok (out, i0 + fs.length, prog') ∧
        ∀ f ∈ fs, (lookupA out f.name).isSome := by
  constructor
  · simp [handleImageReply, hp]
  · intro svc fs i0 acc prog h
    obtain ⟨out, prog', hrun, _, hmem⟩ := runImages_ok parse svc fs i0 acc prog h
    exact ⟨out, prog', hrun, hmem⟩

/-- Witness for C3: a parser that always fails, one image file, one
successful service call. -/
theorem c3_degraded_record_witness :
    handleImageReply (fun _ => none) "plain text reply" =
      { description := "plain text reply"
        abnormalities := []
        measurements := []
        confidence := 0
        recommendations := "Unable to parse detailed analysis" } ∧
    ∃ out prog',
      runImages (fun _ => none) (fun _ => Except.ok "plain text reply")
        [⟨"scan.jpg", "image/jpeg"⟩] 0 [] [] =
        Except.ok (out, 1, prog') ∧
      ∀ f ∈ [(⟨"scan.jpg", "image/jpeg"⟩ : FileRec)],
        (lookupA out f.name).isSome :=
  ⟨(c3_degraded_record (fun _ => none) "plain text reply" rfl).1,
   (c3_degraded_record (fun _ => none) "plain text reply" rfl).2
     (fun _ => Except.ok "plain text reply") [⟨"scan.jpg", "image/jpeg"⟩]
     0 [] [] (fun _ _ => ⟨"plain text reply", rfl⟩)⟩

/-- Claim C4: when the reply for an image parses as JSON of the expected
shape, the record stored under that file's name is exactly the parsed
object, field for field. -/
theorem c4_parsed_exact (parse : String → Option ImageFindings)
    (reply : String) (a : ImageFindings) (hp : parse reply = some a) :
    handleImageReply parse reply = a ∧
    ∀ (svc : Nat → Except Unit String) (f : FileRec) (i : Nat)
      (acc : List (String × ImageFindings)) (prog : List (String × Nat)),
      svc i = Except.ok reply →
      ∃ prog',
        runImages parse svc [f] i acc prog =
          Except.ok (upsert acc f.name a, i + 1, prog') ∧
        lookupA (upsert acc f.name a) f.name = some a := by
  constructor
  · simp [handleImageReply, hp]
  · intro svc f i acc prog hsvc
    refine ⟨upsert (upsert prog f.name 0) f.name 100, ?_,
      lookupA_upsert_self acc f.name a⟩
    simp [runImages, hsvc, handleImageReply, hp]

/-- Witness for C4: a concrete parser, reply and file. -/
theorem c4_parsed_exact_witness :
    handleImageReply
      (fun s => if s = "shaped json" then
        some ⟨"desc", ["finding"], ["2 cm"], 90, "follow up"⟩ else none)
      "shaped json" = ⟨"desc", ["finding"], ["2 cm"], 90, "follow up"⟩ ∧
    ∃ prog',
      runImages
        (fun s => if s = "shaped json" then
          some ⟨"desc", ["finding"], ["2 cm"], 90, "follow up"⟩ else none)
        (fun _ => Except.ok "shaped json") [⟨"xray.png", "image/png"⟩] 0 [] [] =
        Except.ok
          (upsert [] "xray.png"
            (⟨"desc", ["finding"], ["2 cm"], 90, "follow up"⟩ : ImageFindings),
            1, prog') ∧
      lookupA
        (upsert [] "xray.png"
          (⟨"desc", ["finding"], ["2 cm"], 90, "follow up"⟩ : ImageFindings))
        "xray.png" =
        some (⟨"desc", ["finding"], ["2 cm"], 90, "follow up"⟩ : ImageFindings) := by
  have h := c4_parsed_exact
    (fun s => if s = "shaped json" then
      some ⟨"desc", ["finding"], ["2 cm"], 90, "follow up"⟩ else none)
    "shaped json" ⟨"desc", ["finding"], ["2 cm"], 90, "follow up"⟩ (by simp)
  exact ⟨h.1, h.2 (fun _ => Except.ok "shaped json")
    ⟨"xray.png", "image/png"⟩ 0 [] [] rfl⟩

/-- When the service call for the m-th image throws after m successful
calls, the per-image loop aborts with that exception after exactly m plus
one invocations. -/
lemma runImages_error (parse : String → Option ImageFindings)
    (svc : Nat → Except Unit String) :
    ∀ (fs : List FileRec) (m i0 : Nat) (acc : List (String × ImageFindings))
      (prog : List (String × Nat)),
      m < fs.length →
      (∀ j, j < m → ∃ r, svc (i0 + j) = Except.ok r) →
      svc (i0 + m) = Except.error () →
      ∃ prog', runImages parse svc fs i0 acc prog =
        Except.error (i0 + m + 1, prog') := by
  intro fs
  induction fs with
  | nil =>
    intro m i0 acc prog hm
    simp at hm
  | cons f rest ih =>
    intro m i0 acc prog hm hall herr
    cases m with
    | zero =>
      rw [Nat.add_zero] at herr
      exact ⟨upsert prog f.name 0, by simp [runImages, herr]⟩
    | succ m' =>
      obtain ⟨r, hr⟩ := hall 0 (Nat.succ_pos m')
      rw [Nat.add_zero] at hr
      have hm' : m' < rest.length := by simpa using Nat.lt_of_succ_lt_succ hm
      have hall' : ∀ j, j < m' → ∃ r, svc (i0 + 1 + j) = Except.ok r := by
        intro j hj
        have hh := hall (j + 1) (Nat.succ_lt_succ hj)
        rw [show i0 + (j + 1) = i0 + 1 + j by omega] at hh
        exact hh
      have herr' : svc (i0 + 1 + m') = Except.error () := by
        rw [show i0 + 1 + m' = i0 + (m' + 1) by omega]
        exact herr
      obtain ⟨prog', hp'⟩ :=
        ih m' (i0 + 1) (upsert acc f.name (handleImageReply parse r))
          (upsert (upsert prog f.name 0) f.name 100) hm' hall' herr'
      refine ⟨prog', ?_⟩
      rw [show i0 + (m' + 1) + 1 = i0 + 1 + m' + 1 by omega]
      simpa [runImages, hr] using hp'

/-- Claim C2: for a submission that passes validation, if the completion
service throws on some call (after all earlier calls succeeded, and no
later than the aggregate call), the pipeline catches it at the top level:
the error becomes the single generic user-visible message, the previously
stored result is untouched, the analyzing flag is cleared, and the throwing
call was the last invocation made. -/
theorem c2_pipeline_exception (parse : String → Option ImageFindings)
    (svc : Nat → Except Unit String) (s : AState) (i : Nat)
    (hf : s.files ≠ []) (hn : s.patientName ≠ "")
    (hi : i ≤ (s.files.filter fun f => strStartsWith f.mime "image/").length)
    (hall : ∀ j, j < i → ∃ r, svc j = Except.ok r)
    (herr : svc i = Except.error ()) :
    (analyzeContent parse svc s).1.error =
      "Error analyzing documents. Please try again." ∧
    (analyzeContent parse svc s).1.result = s.result ∧
    (analyzeContent parse svc s).1.isAnalyzing = false ∧
    (analyzeContent parse svc s).2 = i + 1 := by
  have hguard : (s.files.length == 0 || s.patientName == "") = false := by
    simp [List.length_eq_zero, hf, hn]
  rcases Nat.lt_or_ge i
    (s.files.filter fun f => strStartsWith f.mime "image/").length with hlt | hge
  · obtain ⟨prog', hrun⟩ := runImages_error parse svc
      (s.files.filter fun f => strStartsWith f.mime "image/") i 0 [] s.progress
      hlt (by simpa using hall) (by simpa using herr)
    rw [Nat.zero_add] at hrun
    simp [analyzeContent, hguard, hrun]
  · have hieq : i = (s.files.filter fun f => strStartsWith f.mime "image/").length :=
      Nat.le_antisymm hi hge
    obtain ⟨out, prog', hrun, _, _⟩ := runImages_ok parse svc
      (s.files.filter fun f => strStartsWith f.mime "image/") 0 [] s.progress
      (by
        intro j hj
        exact (by simpa using hall j (by omega)))
    rw [Nat.zero_add] at hrun
    have herr2 : svc (s.files.filter fun f => strStartsWith f.mime "image/").length =
        Except.error () := by
      rw [← hieq]
      exact herr
    simp [analyzeContent, hguard, hrun, herr2, hieq]

/-- Witness for C2: one image file, a service that always throws, failure
at the first invocation. -/
theorem c2_pipeline_exception_witness :
    (analyzeContent (fun _ => none) (fun _ => Except.error ())
      ⟨[⟨"scan.jpg", "image/jpeg"⟩], "Jane Doe", "", some
        ⟨"prior", [], "d", "r"⟩, false, []⟩).1.error =
      "Error analyzing documents. Please try again." ∧
    (analyzeContent (fun _ => none) (fun _ => Except.error ())
      ⟨[⟨"scan.jpg", "image/jpeg"⟩], "Jane Doe", "", some
        ⟨"prior", [], "d", "r"⟩, false, []⟩).1.result =
      some ⟨"prior", [], "d", "r"⟩ ∧
    (analyzeContent (fun _ => none) (fun _ => Except.error ())
      ⟨[⟨"scan.jpg", "image/jpeg"⟩], "Jane Doe", "", some
        ⟨"prior", [], "d", "r"⟩, false, []⟩).1.isAnalyzing = false ∧
    (analyzeContent (fun _ => none) (fun _ => Except.error ())
      ⟨[⟨"scan.jpg", "image/jpeg"⟩], "Jane Doe", "", some
        ⟨"prior", [], "d", "r"⟩, false, []⟩).2 = 1 :=
  c2_pipeline_exception (fun _ => none) (fun _ => Except.error ())
    ⟨[⟨"scan.jpg", "image/jpeg"⟩], "Jane Doe", "", some
      ⟨"prior", [], "d", "r"⟩, false, []⟩ 0
    (by simp) (by simp) (by simp [strStartsWith, charPrefixEq])
    (fun j hj => absurd hj (Nat.not_lt_zero j)) rfl

/-- While not capturing, a scan over lines none of which is a target never
modifies the accumulator. -/
lemma extractLoop_no_target (names : List String) :
    ∀ (lines : List String) (prev : Option String) (acc : String),
      (∀ l ∈ lines, isTargetLine names l = false) →
      extractLoop names lines prev false acc = acc := by
  intro lines
  induction lines with
  | nil => intro prev acc _; rfl
  | cons l rest ih =>
    intro prev acc h
    have hl : isTargetLine names l = false := h l (List.mem_cons_self l rest)
    have hrest : ∀ x ∈ rest, isTargetLine names x = false :=
      fun x hx => h x (List.mem_cons_of_mem l hx)
    simp [extractLoop, hl, ih (some l) acc hrest]

/-- When no line of the text is a target, extractSection returns the fixed
fallback placeholder. -/
lemma extractSection_no_target (text : String) (names : List String)
    (h : ∀ l ∈ splitLines text, isTargetLine names l = false) :
    extractSection text names = "No information available" := by
  simp [extractSection, extractLoop_no_target names (splitLines text) none "" h,
    strTrim]

/-- Claim C6: for each of the three top-level fields, an aggregate reply in
which no line matches that field's extractSection heading keywords leaves
the field at a fixed not-available placeholder: the field's own default
when the whole-text guard keyword is absent, and the extractSection
fallback placeholder when the guard fires but no heading line exists. -/
theorem c6_placeholder_fields (reply : String) :
    ((∀ l ∈ splitLines reply,
        isTargetLine ["document findings", "text findings"] l = false) →
      (aggregateSections reply).1 = "No document findings available" ∨
      (aggregateSections reply).1 = "No information available") ∧
    ((∀ l ∈ splitLines reply,
        isTargetLine ["diagnosis", "assessment"] l = false) →
      (aggregateSections reply).2.1 = "No diagnosis available" ∨
      (aggregateSections reply).2.1 = "No information available") ∧
    ((∀ l ∈ splitLines reply,
        isTargetLine ["recommendation", "treatment", "plan"] l = false) →
      (aggregateSections reply).2.2 = "No recommendations available" ∨
      (aggregateSections reply).2.2 = "No information available") := by
  refine ⟨?_, ?_, ?_⟩
  · intro h
    by_cases hg : (strContains (strLower reply) "document findings" ||
        strContains (strLower reply) "text findings") = true
    · right
      simp [aggregateSections, hg, extractSection_no_target reply _ h]
    · left
      simp only [Bool.not_eq_true] at hg
      simp [aggregateSections, hg]
  · intro h
    by_cases hg : strContains (strLower reply) "diagnosis" = true
    · right
      simp [aggregateSections, hg, extractSection_no_target reply _ h]
    · left
      simp only [Bool.not_eq_true] at hg
      simp [aggregateSections, hg]
  · intro h
    by_cases hg : (strContains (strLower reply) "recommendation" ||
        strContains (strLower reply) "treatment") = true
    · right
      simp [aggregateSections, hg, extractSection_no_target reply _ h]
    · left
      simp only [Bool.not_eq_true] at hg
      simp [aggregateSections, hg]

/-- Witness for C6: a reply that mentions diagnosis without any heading
line, so all three fields are placeholders. -/
theorem c6_placeholder_fields_witness :
    (aggregateSections "the diagnosis is discussed with no heading").1 =
      "No document findings available" ∧
    (aggregateSections "the diagnosis is discussed with no heading").2.1 =
      "No information available" ∧
    (aggregateSections "the diagnosis is discussed with no heading").2.2 =
      "No recommendations available" := by
  have h := c6_placeholder_fields "the diagnosis is discussed with no heading"
  have h1 := h.1 (by decide)
  have h2 := h.2.1 (by decide)
  have h3 := h.2.2 (by decide)
  refine ⟨?_, ?_, ?_⟩
  · rcases h1 with h1 | h1
    · exact h1
    · exact absurd h1 (by decide)
  · rcases h2 with h2 | h2
    · exact absurd h2 (by decide)
    · exact h2
  · rcases h3 with h3 | h3
    · exact h3
    · exact absurd h3 (by decide)

/-- Claim C5: for a reply whose lines are a diagnosis-style heading, two
captured lines (neither a target nor a potential heading), a blank line and
a next heading-like line, extractSection with the diagnosis keywords
returns exactly the heading line plus the two following lines, trimmed of
the blank line's trailing whitespace, with the next section excluded. -/
theorem c5_section_extraction (names : List String)
    (text headingLine l1 l2 nextHeading : String)
    (hsplit : splitLines text = [headingLine, l1, l2, "", nextHeading])
    (hhead : isTargetLine names headingLine = true)
    (h1t : isTargetLine names l1 = false)
    (h1h : isPotentialHeadingLine l1 = false)
    (h2t : isTargetLine names l2 = false)
    (h2h : isPotentialHeadingLine l2 = false)
    (hblank : isTargetLine names "" = false)
    (hnt : isTargetLine names nextHeading = false)
    (hnh : isPotentialHeadingLine nextHeading = true)
    (hne : strTrim (headingLine ++ "\n" ++ l1 ++ "\n" ++ l2 ++ "\n") ≠ "") :
    extractSection text names =
      strTrim (headingLine ++ "\n" ++ l1 ++ "\n" ++ l2 ++ "\n") := by
  have hpb : prevLineBlank (some "") = true := by decide
  have hbh : isPotentialHeadingLine "" = false := by decide
  have hloop : extractLoop names [headingLine, l1, l2, "", nextHeading]
      none false "" = headingLine ++ "\n" ++ l1 ++ "\n" ++ l2 ++ "\n" := by
    simp [extractLoop, hhead, h1t, h1h, h2t, h2h, hblank, hnt, hnh, hpb, hbh]
  rw [extractSection, hsplit, hloop]
  simp only [beq_iff_eq]
  rw [if_neg hne]

/-- Witness for C5 at the synthetic reply of the spec. -/
theorem c5_section_extraction_witness :
    extractSection
      "Diagnosis: Mild strain\n  rest advised\n  follow up in two weeks\n\nRecommendations: rest"
      ["diagnosis", "assessment"] =
      strTrim ("Diagnosis: Mild strain" ++ "\n" ++ "  rest advised" ++ "\n" ++
        "  follow up in two weeks" ++ "\n") :=
  c5_section_extraction ["diagnosis", "assessment"]
    "Diagnosis: Mild strain\n  rest advised\n  follow up in two weeks\n\nRecommendations: rest"
    "Diagnosis: Mild strain" "  rest advised" "  follow up in two weeks"
    "Recommendations: rest"
    (by decide) (by decide) (by decide) (by decide) (by decide) (by decide)
    (by decide) (by decide) (by decide) (by decide)

/-- The vertical cursor value checked before the Diagnosis section
(ReportAnalyzer line 311): after the metadata block, the document findings
and the image analysis. -/
def pdfY3 (wrap : String → Int → List String)
    (wrapObj : List (String × ImageFindings) → Int → List String)
    (pw : Int) (r : AnalysisResult) : Int :=
  80 + 10 + (wrap r.textFindings (pw - 40)).length * 7 + 10 +
    (wrapObj r.imageFindings (pw - 40)).length * 7

/-- The vertical cursor value checked before the Recommendations section
(ReportAnalyzer line 327): after the diagnosis block, starting from 20 when
a page break preceded the Diagnosis section. -/
def pdfY5 (wrap : String → Int → List String)
    (wrapObj : List (String × ImageFindings) → Int → List String)
    (pw : Int) (r : AnalysisResult) : Int :=
  (if pdfY3 wrap wrapObj pw r > 230 then 20 else pdfY3 wrap wrapObj pw r) +
    10 + (wrap r.diagnosis (pw - 40)).length * 7

/-- The commands generatePDF issues before the first page-break check:
header band, metadata, document findings and image analysis. -/
def pdfHeadPart (wrap : String → Int → List String)
    (wrapObj : List (String × ImageFindings) → Int → List String)
    (pw : Int) (patientName dateStr : String) (r : AnalysisResult) :
    List PdfCmd :=
  [PdfCmd.setFillColor 41 98 255,
   PdfCmd.rect 0 0 pw 40 "F",
   PdfCmd.setTextColor 255 255 255,
   PdfCmd.setFontSize 24,
   PdfCmd.textAt "AI Health Report" 20 25,
   PdfCmd.setTextColor 0 0 0,
   PdfCmd.setFontSize 12,
   PdfCmd.textAt ("Patient Name: " ++ patientName) 20 50,
   PdfCmd.textAt ("Date: " ++ dateStr) 20 60,
   PdfCmd.setFontSize 14,
   PdfCmd.setFont "bold",
   PdfCmd.textAt "Findings from Documents" 20 80,
   PdfCmd.setFont "normal",
   PdfCmd.setFontSize 12,
   PdfCmd.textLines (wrap r.textFindings (pw - 40)) 20 90,
   PdfCmd.setFontSize 14,
   PdfCmd.setFont "bold",
   PdfCmd.textAt "Image Analysis" 20
     (80 + 10 + (wrap r.textFindings (pw - 40)).length * 7),
   PdfCmd.setFont "normal",
   PdfCmd.setFontSize 12,
   PdfCmd.textLines (wrapObj r.imageFindings (pw - 40)) 20
     (80 + 10 + (wrap r.textFindings (pw - 40)).length * 7 + 10)]

/-- The commands of the Diagnosis section, between the two page-break
checks. -/
def pdfDiagnosisPart (wrap : String → Int → List String)
    (wrapObj : List (String × ImageFindings) → Int → List String)
    (pw : Int) (r : AnalysisResult) : List PdfCmd :=
  [PdfCmd.setFontSize 14,
   PdfCmd.setFont "bold",
   PdfCmd.textAt "Diagnosis" 20
     (if pdfY3 wrap wrapObj pw r > 230 then 20 else pdfY3 wrap wrapObj pw r),
   PdfCmd.setFont "normal",
   PdfCmd.setFontSize 12,
   PdfCmd.textLines (wrap r.diagnosis (pw - 40)) 20
     ((if pdfY3 wrap wrapObj pw r > 230 then 20 else pdfY3 wrap wrapObj pw r) +
       10)]

/-- The commands of the Recommendations section and the final save, after
the second page-break check. -/
def pdfRecPart (wrap : String → Int → List String)
    (wrapObj : List (String × ImageFindings) → Int → List String)
    (pw : Int) (patientName : String) (r : AnalysisResult) : List PdfCmd :=
  [PdfCmd.setFontSize 14,
   PdfCmd.setFont "bold",
   PdfCmd.textAt "Recommendations" 20
     (if pdfY5 wrap wrapObj pw r > 230 then 20 else pdfY5 wrap wrapObj pw r),
   PdfCmd.setFont "normal",
   PdfCmd.setFontSize 12,
   PdfCmd.textLines (wrap r.recommendations (pw - 40)) 20
     ((if pdfY5 wrap wrapObj pw r > 230 then 20 else pdfY5 wrap wrapObj pw r) +
       10),
   PdfCmd.save (patientName ++ "_AI_Health_Report.pdf")]

/-- Page-break counting distributes over concatenation. -/
lemma countAddPage_append (a b : List PdfCmd) :
    countAddPage (a ++ b) = countAddPage a + countAddPage b := by
  induction a with
  | nil => simp [countAddPage]
  | cons c rest ih =>
    cases c <;> simp [countAddPage, ih]
    all_goals omega

/-- Claim C7: the renderer's output decomposes into the head, Diagnosis and
Recommendations segments, none of which contains a page break, with a page
break inserted immediately before the Diagnosis segment exactly when the
cursor exceeds 230 there, and immediately before the Recommendations
segment exactly when the cursor exceeds 230 there; consequently the total
number of page breaks is the sum of the two threshold indicators. -/
theorem c7_pagination (wrap : String → Int → List String)
    (wrapObj : List (String × ImageFindings) → Int → List String)
    (pw : Int) (patientName dateStr : String) (r : AnalysisResult) :
    generatePDF wrap wrapObj pw patientName dateStr (some r) =
      pdfHeadPart wrap wrapObj pw patientName dateStr r ++
      (if pdfY3 wrap wrapObj pw r > 230 then [PdfCmd.addPage] else []) ++
      pdfDiagnosisPart wrap wrapObj pw r ++
      (if pdfY5 wrap wrapObj pw r > 230 then [PdfCmd.addPage] else []) ++
      pdfRecPart wrap wrapObj pw patientName r ∧
    countAddPage (pdfHeadPart wrap wrapObj pw patientName dateStr r) = 0 ∧
    countAddPage (pdfDiagnosisPart wrap wrapObj pw r) = 0 ∧
    countAddPage (pdfRecPart wrap wrapObj pw patientName r) = 0 ∧
    countAddPage (generatePDF wrap wrapObj pw patientName dateStr (some r)) =
      (if pdfY3 wrap wrapObj pw r > 230 then 1 else 0) +
      (if pdfY5 wrap wrapObj pw r > 230 then 1 else 0) := by
  have hdec : generatePDF wrap wrapObj pw patientName dateStr (some r) =
      pdfHeadPart wrap wrapObj pw patientName dateStr r ++
      (if pdfY3 wrap wrapObj pw r > 230 then [PdfCmd.addPage] else []) ++
      pdfDiagnosisPart wrap wrapObj pw r ++
      (if pdfY5 wrap wrapObj pw r > 230 then [PdfCmd.addPage] else []) ++
      pdfRecPart wrap wrapObj pw patientName r := by
    simp [generatePDF, pdfHeadPart, pdfDiagnosisPart, pdfRecPart, pdfY3,
      pdfY5]
  have hc1 : countAddPage (pdfHeadPart wrap wrapObj pw patientName dateStr r)
      = 0 := by
    simp [pdfHeadPart, countAddPage]
  have hc2 : countAddPage (pdfDiagnosisPart wrap wrapObj pw r) = 0 := by
    simp [pdfDiagnosisPart, countAddPage]
  have hc3 : countAddPage (pdfRecPart wrap wrapObj pw patientName r) = 0 := by
    simp [pdfRecPart, countAddPage]
  refine ⟨hdec, hc1, hc2, hc3, ?_⟩
  rw [hdec]
  simp only [countAddPage_append, hc1, hc2, hc3]
  by_cases h1 : pdfY3 wrap wrapObj pw r > 230 <;>
    by_cases h2 : pdfY5 wrap wrapObj pw r > 230 <;>
      simp [h1, h2, countAddPage]

/-- Claim C8: with the generation date the only varying input, the two
renders are identical lists of drawing commands except for the single
embedded date command: they share a common prefix and suffix around it. -/
theorem c8_deterministic_render (wrap : String → Int → List String)
    (wrapObj : List (String × ImageFindings) → Int → List String)
    (pw : Int) (patientName : String) (r : AnalysisResult)
    (d1 d2 : String) :
    ∃ pre post,
      generatePDF wrap wrapObj pw patientName d1 (some r) =
        pre ++ [PdfCmd.textAt ("Date: " ++ d1) 20 60] ++ post ∧
      generatePDF wrap wrapObj pw patientName d2 (some r) =
        pre ++ [PdfCmd.textAt ("Date: " ++ d2) 20 60] ++ post := by
  refine ⟨[PdfCmd.setFillColor 41 98 255,
    PdfCmd.rect 0 0 pw 40 "F",
    PdfCmd.setTextColor 255 255 255,
    PdfCmd.setFontSize 24,
    PdfCmd.textAt "AI Health Report" 20 25,
    PdfCmd.setTextColor 0 0 0,
    PdfCmd.setFontSize 12,
    PdfCmd.textAt ("Patient Name: " ++ patientName) 20 50],
    [PdfCmd.setFontSize 14,
     PdfCmd.setFont "bold",
     PdfCmd.textAt "Findings from Documents" 20 80,
     PdfCmd.setFont "normal",
     PdfCmd.setFontSize 12,
     PdfCmd.textLines (wrap r.textFindings (pw - 40)) 20 90,
     PdfCmd.setFontSize 14,
     PdfCmd.setFont "bold",
     PdfCmd.textAt "Image Analysis" 20
       (80 + 10 + (wrap r.textFindings (pw - 40)).length * 7),
     PdfCmd.setFont "normal",
     PdfCmd.setFontSize 12,
     PdfCmd.textLines (wrapObj r.imageFindings (pw - 40)) 20
       (80 + 10 + (wrap r.textFindings (pw - 40)).length * 7 + 10)] ++
    (if pdfY3 wrap wrapObj pw r > 230 then [PdfCmd.addPage] else []) ++
    pdfDiagnosisPart wrap wrapObj pw r ++
    (if pdfY5 wrap wrapObj pw r > 230 then [PdfCmd.addPage] else []) ++
    pdfRecPart wrap wrapObj pw patientName r, ?_, ?_⟩
  all_goals simp [generatePDF, pdfDiagnosisPart, pdfRecPart, pdfY3, pdfY5]
